import Mathlib

/-!
Shallow embedding of the Music-Recommender ingestion pipeline
(`src/Ingestion.py` and `main.py`).

The program reads three CSV datasets from S3 under explicit DDL schemas and
writes them as snappy-compressed parquet files to fixed local paths.

Modelling choices:
* The process environment is a function `String → Option String` (`os.getenv`).
* Module-import-time work (reading `S3_BUCKET` / `AWS_REGION` once) is the
  function `moduleInit`, producing a `ModuleState` that the module-level
  constants `S3_INPUT` depend on.
* The Spark engine is external to the repository; its read path is an oracle
  `Engine : ReaderCfg → String → Except String Nat` giving, per reader
  configuration and source URI, either a fatal error or the number of rows
  materialized.  Local parquet outputs are an association list `FS`; an
  overwrite-mode write replaces any previous entry at the destination path.
* Each conversion also produces a `List Event` trace recording, in order, the
  load, the count, and the write, so that ordering and absence of effects can
  be stated.
* Python dictionaries returned to the caller are association lists
  `List (String × Value)` in insertion order.
-/

/-- Primitive column types occurring in the three DDL schema strings. -/
inductive DType where
  | INT
  | STRING
  | DOUBLE
deriving DecidableEq, Repr

/-- A DDL schema: the ordered (column name, primitive type) pairs of the
schema string. -/
def Schema : Type := List (String × DType)

instance : DecidableEq Schema := by
  unfold Schema
  infer_instance

/-- The process environment, as queried by `os.getenv`. -/
def Env : Type := String → Option String

/-- Function modelling `os.getenv(key, default)`: the default is used only when the variable is
unset (an empty-string value is returned as-is). -/
def getenvD (env : Env) (key dflt : String) : String :=
  (env key).getD dflt

/-- Python truthiness of an optional string: `None` and `""` are falsy,
everything else truthy (used by `if not aws_access_key or ...`). -/
def pyTruthy : Option String → Bool
  | none => false
  | some s => s != ""

/-- State built at module import time: `S3_BUCKET` and `AWS_REGION` are read
from the environment exactly once, with defaults (`Ingestion.py` lines 11-12). -/
structure ModuleState where
  s3_bucket : String
  aws_region : String
deriving DecidableEq, Repr

/-- Module import: `S3_BUCKET = os.getenv("S3_BUCKET", "musicrec-data")` and
`AWS_REGION = os.getenv("AWS_REGION", "ap-south-1")`. -/
def moduleInit (env : Env) : ModuleState :=
  { s3_bucket := getenvD env "S3_BUCKET" "musicrec-data"
    aws_region := getenvD env "AWS_REGION" "ap-south-1" }

/-- The dict `S3_INPUT`: the three source URIs, fixed at import time from the bucket
name (`Ingestion.py` lines 14-18). -/
def S3_INPUT (st : ModuleState) : List (String × String) :=
  [("tracks", "s3a://" ++ st.s3_bucket ++ "/raw_tracks.csv"),
   ("genres", "s3a://" ++ st.s3_bucket ++ "/raw_genres.csv"),
   ("artists", "s3a://" ++ st.s3_bucket ++ "/raw_artists.csv")]

/-- The dict `LOCAL_OUTPUT`: the three fixed local destination paths
(`Ingestion.py` lines 20-24). -/
def LOCAL_OUTPUT : List (String × String) :=
  [("tracks", "data/processed/tracks.parquet"),
   ("genres", "data/processed/genres.parquet"),
   ("artists", "data/processed/artists.parquet")]

/-- Python dict access `d[k]` for the literal dicts above (keys always
present, so the `KeyError` branch cannot arise). -/
def lookupD (d : List (String × String)) (k : String) : String :=
  (d.lookup k).getD ""

/-- The `TRACKS_SCHEMA` DDL string (`Ingestion.py` lines 26-66), transcribed
as its ordered (name, type) pairs. -/
def TRACKS_SCHEMA : Schema := [
  ("track_id", DType.INT),
  ("album_id", DType.INT),
  ("album_title", DType.STRING),
  ("album_url", DType.STRING),
  ("artist_id", DType.INT),
  ("artist_name", DType.STRING),
  ("artist_url", DType.STRING),
  ("artist_website", DType.STRING),
  ("license_image_file", DType.STRING),
  ("license_image_file_large", DType.STRING),
  ("license_parent_id", DType.INT),
  ("license_title", DType.STRING),
  ("license_url", DType.STRING),
  ("tags", DType.STRING),
  ("track_bit_rate", DType.INT),
  ("track_comments", DType.INT),
  ("track_composer", DType.STRING),
  ("track_copyright_c", DType.STRING),
  ("track_copyright_p", DType.STRING),
  ("track_date_created", DType.STRING),
  ("track_date_recorded", DType.STRING),
  ("track_disc_number", DType.INT),
  ("track_duration", DType.STRING),
  ("track_explicit", DType.STRING),
  ("track_explicit_notes", DType.STRING),
  ("track_favorites", DType.INT),
  ("track_file", DType.STRING),
  ("track_genres", DType.STRING),
  ("track_image_file", DType.STRING),
  ("track_information", DType.STRING),
  ("track_instrumental", DType.INT),
  ("track_interest", DType.INT),
  ("track_language_code", DType.STRING),
  ("track_listens", DType.INT),
  ("track_lyricist", DType.STRING),
  ("track_number", DType.INT),
  ("track_publisher", DType.STRING),
  ("track_title", DType.STRING),
  ("track_url", DType.STRING)]

/-- The `GENRES_SCHEMA` DDL string (`Ingestion.py` lines 68-74), transcribed
as its ordered (name, type) pairs. -/
def GENRES_SCHEMA : Schema := [
  ("genre_id", DType.INT),
  ("genre_color", DType.STRING),
  ("genre_handle", DType.STRING),
  ("genre_parent_id", DType.INT),
  ("genre_title", DType.STRING)]

/-- The `ARTISTS_SCHEMA` DDL string (`Ingestion.py` lines 76-102), transcribed
as its ordered (name, type) pairs. -/
def ARTISTS_SCHEMA : Schema := [
  ("artist_id", DType.INT),
  ("artist_active_year_begin", DType.INT),
  ("artist_active_year_end", DType.INT),
  ("artist_associated_labels", DType.STRING),
  ("artist_bio", DType.STRING),
  ("artist_comments", DType.INT),
  ("artist_contact", DType.STRING),
  ("artist_date_created", DType.STRING),
  ("artist_donation_url", DType.STRING),
  ("artist_favorites", DType.INT),
  ("artist_flattr_name", DType.STRING),
  ("artist_handle", DType.STRING),
  ("artist_image_file", DType.STRING),
  ("artist_images", DType.STRING),
  ("artist_latitude", DType.DOUBLE),
  ("artist_location", DType.STRING),
  ("artist_longitude", DType.DOUBLE),
  ("artist_members", DType.STRING),
  ("artist_name", DType.STRING),
  ("artist_paypal_name", DType.STRING),
  ("artist_related_projects", DType.STRING),
  ("artist_url", DType.STRING),
  ("artist_website", DType.STRING),
  ("artist_wikipedia_page", DType.STRING),
  ("tags", DType.STRING)]

/-- The configured Spark session handle produced by `getOrCreate`: its app
name, master, ordered `.config` pairs, and the log level set right after. -/
structure SparkSession where
  appName : String
  master : String
  configs : List (String × String)
  logLevel : String
deriving DecidableEq, Repr

/-- The exact `ValueError` message of `create_spark_session`
(`Ingestion.py` lines 111-114, two adjacent string literals). -/
def credsErrorMsg : String :=
  "AWS credentials not found. Set AWS_ACCESS_KEY_ID and " ++
  "AWS_SECRET_ACCESS_KEY in environment or .env file."

/-- The function `create_spark_session` (`Ingestion.py` lines 104-138): re-reads the two
credential variables from the current environment, validates them (Python
truthiness: unset or empty fails), and only then builds the session.  The
bucket/region state fixed at import (`ModuleState`) supplies the endpoint.
An `Except.error` models the raised `ValueError`; no `SparkSession` value
exists on that path, so no session is created and no network is touched. -/
def create_spark_session (st : ModuleState) (env : Env) : Except String SparkSession :=
  let aws_access_key := env "AWS_ACCESS_KEY_ID"
  let aws_secret_key := env "AWS_SECRET_ACCESS_KEY"
  if !pyTruthy aws_access_key || !pyTruthy aws_secret_key then
    .error credsErrorMsg
  else
    .ok
      { appName := "FMA_CSV_to_Parquet"
        master := "local[*]"
        configs :=
          [("spark.jars.packages",
            "org.apache.hadoop:hadoop-aws:3.3.4," ++
            "com.amazonaws:aws-java-sdk-bundle:1.12.262"),
           ("spark.hadoop.fs.s3a.impl",
            "org.apache.hadoop.fs.s3a.S3AFileSystem"),
           ("spark.hadoop.fs.s3a.access.key", aws_access_key.getD ""),
           ("spark.hadoop.fs.s3a.secret.key", aws_secret_key.getD ""),
           ("spark.hadoop.fs.s3a.endpoint",
            "s3." ++ st.aws_region ++ ".amazonaws.com"),
           ("spark.hadoop.fs.s3a.path.style.access", "true"),
           ("spark.hadoop.fs.s3a.connection.ssl.enabled", "true"),
           ("spark.driver.memory", "4g"),
           ("spark.sql.adaptive.enabled", "true"),
           ("spark.sql.parquet.compression.codec", "snappy")]
        logLevel := "WARN" }

/-- A CSV reader configuration as assembled by `csv_to_parquet`: the format,
the ordered `.option` pairs, and the declared schema. -/
structure ReaderCfg where
  fmt : String
  options : List (String × String)
  schema : Schema
deriving DecidableEq

/-- The reader built in `csv_to_parquet` (`Ingestion.py` lines 147-158):
always `format("csv")`, `option("header", "true")`, `schema(schema_ddl)`;
when `multiline` additionally `multiLine`, `quote`, `escape` and
`mode PERMISSIVE`, in that order. -/
def mkReader (schema_ddl : Schema) (multiline : Bool) : ReaderCfg :=
  let reader : ReaderCfg :=
    { fmt := "csv", options := [("header", "true")], schema := schema_ddl }
  if multiline then
    { reader with
        options := reader.options ++
          [("multiLine", "true"), ("quote", "\""), ("escape", "\""),
           ("mode", "PERMISSIVE")] }
  else
    reader

/-- Outcome of the external CSV engine on a single source row. -/
inductive RowOutcome where
  | retained
  | corruptRetained
  | fatal
deriving DecidableEq, Repr

/-- Modelled from the spec: the Spark CSV engine is not part of this
repository; per the spec's error-handling design, a row whose field count
matches the declared schema is retained, a structurally mismatched row is
retained in best-effort (possibly corrupted) form when the reader is
configured with `mode PERMISSIVE`, and is fatal otherwise. -/
def rowOutcome (cfg : ReaderCfg) (fieldCount : Nat) : RowOutcome :=
  if fieldCount = cfg.schema.length then .retained
  else if cfg.options.lookup "mode" = some "PERMISSIVE" then .corruptRetained
  else .fatal

/-- A parquet file as written to a local destination path. -/
structure OutFile where
  fmt : String
  compression : String
  rows : Nat
deriving DecidableEq, Repr

/-- The local filesystem of written outputs: destination path ↦ file. -/
def FS : Type := List (String × OutFile)

instance : DecidableEq FS := by
  unfold FS
  infer_instance

/-- Modelled from the spec: an overwrite-mode write fully replaces whatever
was at the destination path (never merges or appends). -/
def fsWrite (fs : FS) (path : String) (f : OutFile) : FS :=
  (path, f) :: fs.filter (fun e => e.1 != path)

/-- How many entries of the filesystem sit at a given path. -/
def countKey (fs : FS) (path : String) : Nat :=
  fs.countP (fun e => e.1 == path)

/-- The external engine: for a reader configuration and a source URI, either
a fatal read error or the number of rows materialized by `df.count()`. -/
def Engine : Type := ReaderCfg → String → Except String Nat

/-- A value inside a returned Python dict. -/
inductive Value where
  | nat (n : Nat)
  | str (s : String)
deriving DecidableEq, Repr

/-- A returned Python dict, in insertion order. -/
def PyDict : Type := List (String × Value)

instance : DecidableEq PyDict := by
  unfold PyDict
  infer_instance

/-- Observable effects of a conversion, in program order. -/
inductive Event where
  | load (path : String) (cfg : ReaderCfg)
  | countEv (n : Nat)
  | writeEv (path mode compression : String) (rows : Nat)
deriving DecidableEq

/-- Result of one `csv_to_parquet` call: the returned dict (or the raised
error), the filesystem afterwards, and the effect trace. -/
structure ConvOut where
  result : Except String PyDict
  fs : FS
  trace : List Event

/-- The function `csv_to_parquet` (`Ingestion.py` lines 140-171): builds the reader, loads
the source, counts the rows (forcing materialization; a read failure raises
here, before any write), then writes the dataframe as parquet in overwrite
mode with snappy compression, and returns
`{"count": count, "output_path": output_path}`. -/
def csv_to_parquet (engine : Engine) (fs : FS) (input_path output_path : String)
    (schema_ddl : Schema) (multiline : Bool) : ConvOut :=
  let reader := mkReader schema_ddl multiline
  match engine reader input_path with
  | .error e => { result := .error e, fs := fs, trace := [.load input_path reader] }
  | .ok count =>
      { result := .ok [("count", .nat count), ("output_path", .str output_path)]
        fs := fsWrite fs output_path { fmt := "parquet", compression := "snappy", rows := count }
        trace := [.load input_path reader, .countEv count,
                  .writeEv output_path "overwrite" "snappy" count] }

/-- Result of `convert_all`: the results dict (or the propagated error), the
filesystem afterwards, and the concatenated effect traces. -/
structure AllOut where
  result : Except String (List (String × PyDict))
  fs : FS
  trace : List Event

/-- The function `convert_all` (`Ingestion.py` lines 173-202): sequentially converts
tracks (multiline), genres (single-line), artists (multiline); an error in
any conversion propagates at once, leaving earlier outputs in place and
returning no results dict.  (The `os.makedirs` of the output directory is an
OS effect outside the modelled filesystem of written datasets.) -/
def convert_all (engine : Engine) (st : ModuleState) (fs : FS) : AllOut :=
  let t := csv_to_parquet engine fs (lookupD (S3_INPUT st) "tracks")
    (lookupD LOCAL_OUTPUT "tracks") TRACKS_SCHEMA true
  match t.result with
  | .error e => { result := .error e, fs := t.fs, trace := t.trace }
  | .ok rt =>
    let g := csv_to_parquet engine t.fs (lookupD (S3_INPUT st) "genres")
      (lookupD LOCAL_OUTPUT "genres") GENRES_SCHEMA false
    match g.result with
    | .error e => { result := .error e, fs := g.fs, trace := t.trace ++ g.trace }
    | .ok rg =>
      let a := csv_to_parquet engine g.fs (lookupD (S3_INPUT st) "artists")
        (lookupD LOCAL_OUTPUT "artists") ARTISTS_SCHEMA true
      match a.result with
      | .error e => { result := .error e, fs := a.fs, trace := t.trace ++ g.trace ++ a.trace }
      | .ok ra =>
        { result := .ok [("tracks", rt), ("genres", rg), ("artists", ra)]
          fs := a.fs
          trace := t.trace ++ g.trace ++ a.trace }

/-! ## Helper lemmas and concrete test fixtures -/

/-- Unfolding lemma: a conversion whose read materializes `n` rows returns
the dict, writes the snappy parquet file, and records the three events. -/
theorem csv_to_parquet_ok (engine : Engine) (fs : FS) (input output : String)
    (s : Schema) (ml : Bool) (n : Nat)
    (h : engine (mkReader s ml) input = .ok n) :
    csv_to_parquet engine fs input output s ml =
      { result := .ok [("count", .nat n), ("output_path", .str output)]
        fs := fsWrite fs output { fmt := "parquet", compression := "snappy", rows := n }
        trace := [.load input (mkReader s ml), .countEv n,
                  .writeEv output "overwrite" "snappy" n] } := by
  simp [csv_to_parquet, h]

/-- Unfolding lemma: a conversion whose read fails propagates the error,
leaves the filesystem untouched, and performs no write. -/
theorem csv_to_parquet_err (engine : Engine) (fs : FS) (input output : String)
    (s : Schema) (ml : Bool) (e : String)
    (h : engine (mkReader s ml) input = .error e) :
    csv_to_parquet engine fs input output s ml =
      { result := .error e, fs := fs, trace := [.load input (mkReader s ml)] } := by
  simp [csv_to_parquet, h]

/-- Filtering out a key leaves no entry counted at that key. -/
theorem countP_filter_ne (fs : FS) (p : String) :
    (fs.filter (fun e => e.1 != p)).countP (fun e => e.1 == p) = 0 := by
  induction fs with
  | nil => rfl
  | cons e t ih =>
    by_cases h : e.1 = p
    · simp [List.filter_cons, h, ih]
    · simp [List.filter_cons, h, List.countP_cons, ih]

/-- An overwrite-mode write leaves exactly one entry at the destination. -/
theorem countKey_fsWrite (fs : FS) (p : String) (f : OutFile) :
    countKey (fsWrite fs p f) p = 1 := by
  simp [countKey, fsWrite, List.countP_cons, countP_filter_ne]

/-- Test engine: every read materializes 2 rows. -/
def engineOk2 : Engine := fun _ _ => .ok 2

/-- Test engine: every read fails. -/
def engineFail : Engine := fun _ _ => .error "connection refused"

/-- Test engine: the artists source fails, everything else reads 2 rows. -/
def engineArtistsFail : Engine := fun _ p =>
  if p = "s3a://musicrec-data/raw_artists.csv" then .error "artists read failed"
  else .ok 2

/-- Test engine: the genres source fails, everything else reads 2 rows. -/
def engineGenresFail : Engine := fun _ p =>
  if p = "s3a://musicrec-data/raw_genres.csv" then .error "genres read failed"
  else .ok 2

/-- Test environment: nothing set. -/
def envNoCreds : Env := fun _ => none

/-- Test environment: both credentials set and non-empty, nothing else. -/
def envGoodCreds : Env := fun k =>
  if k = "AWS_ACCESS_KEY_ID" then some "AKIAEXAMPLE"
  else if k = "AWS_SECRET_ACCESS_KEY" then some "secretExample"
  else none

/-- Test environment: custom bucket and region, no credentials. -/
def envCustom : Env := fun k =>
  if k = "S3_BUCKET" then some "mybucket"
  else if k = "AWS_REGION" then some "eu-west-1"
  else none

/-- Module state from an empty environment: both defaults apply. -/
def stW : ModuleState := moduleInit envNoCreds

/-! ## Claims -/

/-- C4 counterexample: the claim's column counts are wrong on the code —
`TRACKS_SCHEMA` declares 39 columns, not 38. -/
theorem schema_counts_claim_false :
    ¬ (TRACKS_SCHEMA.length = 38 ∧ GENRES_SCHEMA.length = 5 ∧
        ARTISTS_SCHEMA.length = 25) := by
  decide

/-- C4 (amended): the tracks schema declares 39 columns, the genres schema 5,
and the artists schema 25. -/
theorem schema_column_counts :
    TRACKS_SCHEMA.length = 39 ∧ GENRES_SCHEMA.length = 5 ∧
      ARTISTS_SCHEMA.length = 25 := by
  decide

/-- C5: exactly when the multiline flag is set, the reader additionally gets
multi-line parsing, double-quote as quote and escape character, and
permissive mode; with the flag unset it has only the header option, the csv
format, and the declared schema. -/
theorem reader_options_multiline (s : Schema) :
    mkReader s true =
      { fmt := "csv"
        options := [("header", "true"), ("multiLine", "true"), ("quote", "\""),
                    ("escape", "\""), ("mode", "PERMISSIVE")]
        schema := s } ∧
    mkReader s false =
      { fmt := "csv", options := [("header", "true")], schema := s } :=
  ⟨rfl, rfl⟩

/-- C2: the genres dataset is read with multiline disabled, so its reader
carries no permissive-mode option; under the engine's modelled parse
semantics every row whose field count differs from the declared 5-column
schema is fatal rather than retained in best-effort form. -/
theorem genres_strict_mismatch_fatal (n : Nat) (hn : n ≠ GENRES_SCHEMA.length) :
    rowOutcome (mkReader GENRES_SCHEMA false) n = .fatal ∧
    GENRES_SCHEMA.length = 5 ∧
    (mkReader GENRES_SCHEMA false).options.lookup "mode" = none := by
  refine ⟨?_, by decide, by decide⟩
  simp [rowOutcome, mkReader, hn, List.lookup]

/-- C2 witness: a 4-field row against the 5-column genres schema is fatal. -/
theorem genres_strict_mismatch_fatal_witness :
    (4 ≠ GENRES_SCHEMA.length) ∧
    (rowOutcome (mkReader GENRES_SCHEMA false) 4 = .fatal ∧
      GENRES_SCHEMA.length = 5 ∧
      (mkReader GENRES_SCHEMA false).options.lookup "mode" = none) :=
  ⟨by decide, genres_strict_mismatch_fatal 4 (by decide)⟩

/-- C3: a credential is rejected precisely when unset or the empty string;
if either credential fails that check, `create_spark_session` returns the
fatal error before any session value is built (so no network is touched),
and if both pass, session construction proceeds and yields a session. -/
theorem create_spark_session_cred_validation (st : ModuleState) (env : Env) :
    (∀ o : Option String, pyTruthy o = false ↔ (o = none ∨ o = some "")) ∧
    ((pyTruthy (env "AWS_ACCESS_KEY_ID") = false ∨
        pyTruthy (env "AWS_SECRET_ACCESS_KEY") = false) →
      create_spark_session st env = .error credsErrorMsg) ∧
    (pyTruthy (env "AWS_ACCESS_KEY_ID") = true →
      pyTruthy (env "AWS_SECRET_ACCESS_KEY") = true →
      ∃ sess, create_spark_session st env = .ok sess) := by
  refine ⟨?_, ?_, ?_⟩
  · intro o
    cases o with
    | none => simp [pyTruthy]
    | some s => simp [pyTruthy]
  · intro h
    rcases h with h | h <;> simp [create_spark_session, h]
  · intro h1 h2
    simp [create_spark_session, h1, h2]

/-- C3 witness: with no environment the session call fails with the exact
message; with both credentials set and non-empty it returns a session. -/
theorem create_spark_session_cred_validation_witness :
    create_spark_session stW envNoCreds = .error credsErrorMsg ∧
    ∃ sess, create_spark_session stW envGoodCreds = .ok sess :=
  ⟨(create_spark_session_cred_validation stW envNoCreds).2.1 (Or.inl rfl),
   (create_spark_session_cred_validation stW envGoodCreds).2.2 rfl rfl⟩

/-- C1: a successful conversion returns a dict with exactly the keys
`count` and `output_path`, in that order, where `count` is the number of
rows the engine materialized for the given schema and `output_path` is the
destination argument unchanged; the file written at the destination holds
exactly that many rows. -/
theorem csv_to_parquet_result_contract (engine : Engine) (fs : FS)
    (input output : String) (s : Schema) (ml : Bool) (n : Nat)
    (h : engine (mkReader s ml) input = .ok n) :
    ∃ d : PyDict,
      (csv_to_parquet engine fs input output s ml).result = .ok d ∧
      d.map Prod.fst = ["count", "output_path"] ∧
      d.lookup "count" = some (.nat n) ∧
      d.lookup "output_path" = some (.str output) ∧
      (csv_to_parquet engine fs input output s ml).fs.lookup output =
        some { fmt := "parquet", compression := "snappy", rows := n } := by
  refine ⟨[("count", .nat n), ("output_path", .str output)], ?_, rfl, ?_, ?_, ?_⟩
  · simp [csv_to_parquet_ok engine fs input output s ml n h]
  · simp [List.lookup]
  · simp [List.lookup]
  · simp [csv_to_parquet_ok engine fs input output s ml n h, fsWrite, List.lookup]

/-- C1 witness: a concrete conversion of a 2-row source. -/
theorem csv_to_parquet_result_contract_witness :
    engineOk2 (mkReader GENRES_SCHEMA false) "s3a://musicrec-data/raw_genres.csv" =
      .ok 2 ∧
    ∃ d : PyDict,
      (csv_to_parquet engineOk2 [] "s3a://musicrec-data/raw_genres.csv"
          "data/processed/genres.parquet" GENRES_SCHEMA false).result = .ok d ∧
      d.map Prod.fst = ["count", "output_path"] ∧
      d.lookup "count" = some (.nat 2) ∧
      d.lookup "output_path" = some (.str "data/processed/genres.parquet") ∧
      (csv_to_parquet engineOk2 [] "s3a://musicrec-data/raw_genres.csv"
          "data/processed/genres.parquet" GENRES_SCHEMA false).fs.lookup
          "data/processed/genres.parquet" =
        some { fmt := "parquet", compression := "snappy", rows := 2 } :=
  ⟨rfl, csv_to_parquet_result_contract engineOk2 []
    "s3a://musicrec-data/raw_genres.csv" "data/processed/genres.parquet"
    GENRES_SCHEMA false 2 rfl⟩

/-- C7: on a successful conversion the trace is load, then count, then
write — the count (full materialization) strictly precedes the write; if
materializing the read fails, the conversion aborts with the raised error,
the filesystem is unchanged (the destination is untouched by this call),
and the trace holds no write event. -/
theorem count_before_write (engine : Engine) (fs : FS) (input output : String)
    (s : Schema) (ml : Bool) :
    (∀ n, engine (mkReader s ml) input = .ok n →
      (csv_to_parquet engine fs input output s ml).trace =
        [.load input (mkReader s ml), .countEv n,
         .writeEv output "overwrite" "snappy" n]) ∧
    (∀ e, engine (mkReader s ml) input = .error e →
      (csv_to_parquet engine fs input output s ml).result = .error e ∧
      (csv_to_parquet engine fs input output s ml).fs = fs ∧
      (csv_to_parquet engine fs input output s ml).trace =
        [.load input (mkReader s ml)]) := by
  constructor
  · intro n h
    simp [csv_to_parquet_ok engine fs input output s ml n h]
  · intro e h
    simp [csv_to_parquet_err engine fs input output s ml e h]

/-- C7 witness: a succeeding engine shows the count-then-write trace, and a
failing engine leaves a non-empty filesystem unchanged with no write. -/
theorem count_before_write_witness :
    engineOk2 (mkReader GENRES_SCHEMA false) "in.csv" = .ok 2 ∧
    engineFail (mkReader GENRES_SCHEMA false) "in.csv" = .error "connection refused" ∧
    (csv_to_parquet engineOk2 [] "in.csv" "out.parquet" GENRES_SCHEMA false).trace =
      [.load "in.csv" (mkReader GENRES_SCHEMA false), .countEv 2,
       .writeEv "out.parquet" "overwrite" "snappy" 2] ∧
    ((csv_to_parquet engineFail [("other.parquet", ⟨"parquet", "snappy", 7⟩)]
        "in.csv" "out.parquet" GENRES_SCHEMA false).result = .error "connection refused" ∧
      (csv_to_parquet engineFail [("other.parquet", ⟨"parquet", "snappy", 7⟩)]
        "in.csv" "out.parquet" GENRES_SCHEMA false).fs =
        [("other.parquet", ⟨"parquet", "snappy", 7⟩)] ∧
      (csv_to_parquet engineFail [("other.parquet", ⟨"parquet", "snappy", 7⟩)]
        "in.csv" "out.parquet" GENRES_SCHEMA false).trace =
        [.load "in.csv" (mkReader GENRES_SCHEMA false)]) :=
  ⟨rfl, rfl,
   (count_before_write engineOk2 [] "in.csv" "out.parquet" GENRES_SCHEMA false).1 2 rfl,
   (count_before_write engineFail [("other.parquet", ⟨"parquet", "snappy", 7⟩)]
     "in.csv" "out.parquet" GENRES_SCHEMA false).2 "connection refused" rfl⟩

/-- C8: every successful conversion writes in overwrite mode with snappy
compression; the destination is fully replaced, so after a write exactly one
entry exists at the destination path; the three destinations are fixed
relative paths under `data/processed/`; and the session's default parquet
codec is snappy. -/
theorem conversion_overwrite_snappy (engine : Engine) (fs : FS)
    (st : ModuleState) (env : Env) (input output : String) (s : Schema)
    (ml : Bool) (n : Nat)
    (hread : engine (mkReader s ml) input = .ok n)
    (hak : pyTruthy (env "AWS_ACCESS_KEY_ID") = true)
    (hsk : pyTruthy (env "AWS_SECRET_ACCESS_KEY") = true) :
    (csv_to_parquet engine fs input output s ml).fs =
      fsWrite fs output { fmt := "parquet", compression := "snappy", rows := n } ∧
    Event.writeEv output "overwrite" "snappy" n ∈
      (csv_to_parquet engine fs input output s ml).trace ∧
    (∀ (fs2 : FS) (p : String) (f : OutFile), countKey (fsWrite fs2 p f) p = 1) ∧
    LOCAL_OUTPUT =
      [("tracks", "data/processed/" ++ "tracks.parquet"),
       ("genres", "data/processed/" ++ "genres.parquet"),
       ("artists", "data/processed/" ++ "artists.parquet")] ∧
    (create_spark_session st env).map
        (fun sess => sess.configs.lookup "spark.sql.parquet.compression.codec") =
      .ok (some "snappy") := by
  refine ⟨?_, ?_, ?_, ?_, ?_⟩
  · simp [csv_to_parquet_ok engine fs input output s ml n hread]
  · simp [csv_to_parquet_ok engine fs input output s ml n hread]
  · intro fs2 p f
    exact countKey_fsWrite fs2 p f
  · rfl
  · simp [create_spark_session, hak, hsk]
    rfl

/-- C8 witness: a concrete conversion, re-run on its own output, and a
concrete session. -/
theorem conversion_overwrite_snappy_witness :
    engineOk2 (mkReader GENRES_SCHEMA false) "in.csv" = .ok 2 ∧
    pyTruthy (envGoodCreds "AWS_ACCESS_KEY_ID") = true ∧
    pyTruthy (envGoodCreds "AWS_SECRET_ACCESS_KEY") = true ∧
    (csv_to_parquet engineOk2 [] "in.csv" "data/processed/genres.parquet"
        GENRES_SCHEMA false).fs =
      fsWrite [] "data/processed/genres.parquet"
        { fmt := "parquet", compression := "snappy", rows := 2 } ∧
    countKey
      (fsWrite [("data/processed/genres.parquet", ⟨"parquet", "snappy", 9⟩)]
        "data/processed/genres.parquet" ⟨"parquet", "snappy", 2⟩)
      "data/processed/genres.parquet" = 1 ∧
    LOCAL_OUTPUT =
      [("tracks", "data/processed/" ++ "tracks.parquet"),
       ("genres", "data/processed/" ++ "genres.parquet"),
       ("artists", "data/processed/" ++ "artists.parquet")] ∧
    (create_spark_session stW envGoodCreds).map
        (fun sess => sess.configs.lookup "spark.sql.parquet.compression.codec") =
      .ok (some "snappy") :=
  ⟨rfl, rfl, rfl,
   (conversion_overwrite_snappy engineOk2 [] stW envGoodCreds "in.csv"
      "data/processed/genres.parquet" GENRES_SCHEMA false 2 rfl rfl rfl).1,
   (conversion_overwrite_snappy engineOk2 [] stW envGoodCreds "in.csv"
      "data/processed/genres.parquet" GENRES_SCHEMA false 2 rfl rfl rfl).2.2.1
     [("data/processed/genres.parquet", ⟨"parquet", "snappy", 9⟩)]
     "data/processed/genres.parquet" ⟨"parquet", "snappy", 2⟩,
   (conversion_overwrite_snappy engineOk2 [] stW envGoodCreds "in.csv"
      "data/processed/genres.parquet" GENRES_SCHEMA false 2 rfl rfl rfl).2.2.2.1,
   (conversion_overwrite_snappy engineOk2 [] stW envGoodCreds "in.csv"
      "data/processed/genres.parquet" GENRES_SCHEMA false 2 rfl rfl rfl).2.2.2.2⟩

/-- C6: when all three reads succeed, `convert_all` performs exactly three
conversions, in order tracks (multiline), genres (single-line), artists
(multiline) — visible as the three load events in the trace — and returns
the results dict keyed exactly `tracks`, `genres`, `artists`, each bound to
the corresponding conversion's returned dict. -/
theorem convert_all_sequence (engine : Engine) (st : ModuleState) (fs : FS)
    (n1 n2 n3 : Nat)
    (h1 : engine (mkReader TRACKS_SCHEMA true) (lookupD (S3_INPUT st) "tracks") = .ok n1)
    (h2 : engine (mkReader GENRES_SCHEMA false) (lookupD (S3_INPUT st) "genres") = .ok n2)
    (h3 : engine (mkReader ARTISTS_SCHEMA true) (lookupD (S3_INPUT st) "artists") = .ok n3) :
    (convert_all engine st fs).result = .ok
      [("tracks", [("count", .nat n1),
                   ("output_path", .str (lookupD LOCAL_OUTPUT "tracks"))]),
       ("genres", [("count", .nat n2),
                   ("output_path", .str (lookupD LOCAL_OUTPUT "genres"))]),
       ("artists", [("count", .nat n3),
                    ("output_path", .str (lookupD LOCAL_OUTPUT "artists"))])] ∧
    (convert_all engine st fs).trace =
      [.load (lookupD (S3_INPUT st) "tracks") (mkReader TRACKS_SCHEMA true),
       .countEv n1,
       .writeEv (lookupD LOCAL_OUTPUT "tracks") "overwrite" "snappy" n1,
       .load (lookupD (S3_INPUT st) "genres") (mkReader GENRES_SCHEMA false),
       .countEv n2,
       .writeEv (lookupD LOCAL_OUTPUT "genres") "overwrite" "snappy" n2,
       .load (lookupD (S3_INPUT st) "artists") (mkReader ARTISTS_SCHEMA true),
       .countEv n3,
       .writeEv (lookupD LOCAL_OUTPUT "artists") "overwrite" "snappy" n3] := by
  have e1 := csv_to_parquet_ok engine fs (lookupD (S3_INPUT st) "tracks")
    (lookupD LOCAL_OUTPUT "tracks") TRACKS_SCHEMA true n1 h1
  have e2 := csv_to_parquet_ok engine
    (fsWrite fs (lookupD LOCAL_OUTPUT "tracks")
      { fmt := "parquet", compression := "snappy", rows := n1 })
    (lookupD (S3_INPUT st) "genres") (lookupD LOCAL_OUTPUT "genres")
    GENRES_SCHEMA false n2 h2
  have e3 := csv_to_parquet_ok engine
    (fsWrite
      (fsWrite fs (lookupD LOCAL_OUTPUT "tracks")
        { fmt := "parquet", compression := "snappy", rows := n1 })
      (lookupD LOCAL_OUTPUT "genres")
      { fmt := "parquet", compression := "snappy", rows := n2 })
    (lookupD (S3_INPUT st) "artists") (lookupD LOCAL_OUTPUT "artists")
    ARTISTS_SCHEMA true n3 h3
  simp [convert_all, e1, e2, e3]

/-- C6 witness: a concrete all-success run. -/
theorem convert_all_sequence_witness :
    engineOk2 (mkReader TRACKS_SCHEMA true) (lookupD (S3_INPUT stW) "tracks") = .ok 2 ∧
    engineOk2 (mkReader GENRES_SCHEMA false) (lookupD (S3_INPUT stW) "genres") = .ok 2 ∧
    engineOk2 (mkReader ARTISTS_SCHEMA true) (lookupD (S3_INPUT stW) "artists") = .ok 2 ∧
    (convert_all engineOk2 stW []).result = .ok
      [("tracks", [("count", .nat 2),
                   ("output_path", .str (lookupD LOCAL_OUTPUT "tracks"))]),
       ("genres", [("count", .nat 2),
                   ("output_path", .str (lookupD LOCAL_OUTPUT "genres"))]),
       ("artists", [("count", .nat 2),
                    ("output_path", .str (lookupD LOCAL_OUTPUT "artists"))])] :=
  ⟨rfl, rfl, rfl, (convert_all_sequence engineOk2 stW [] 2 2 2 rfl rfl rfl).1⟩

/-- C9: whenever a later conversion fails after an earlier one succeeded —
genres failing after tracks, or artists failing after tracks and genres —
`convert_all` propagates the error (no results dict is returned) and the
filesystem still holds exactly the outputs written by the earlier,
succeeded conversions, unchanged — no rollback. -/
theorem convert_all_no_rollback (engine : Engine) (st : ModuleState) (fs : FS) :
    (∀ (n1 : Nat) (e : String),
      engine (mkReader TRACKS_SCHEMA true) (lookupD (S3_INPUT st) "tracks") = .ok n1 →
      engine (mkReader GENRES_SCHEMA false) (lookupD (S3_INPUT st) "genres") = .error e →
      (convert_all engine st fs).result = .error e ∧
      (convert_all engine st fs).fs =
        fsWrite fs (lookupD LOCAL_OUTPUT "tracks")
          { fmt := "parquet", compression := "snappy", rows := n1 } ∧
      (convert_all engine st fs).fs.lookup (lookupD LOCAL_OUTPUT "tracks") =
        some { fmt := "parquet", compression := "snappy", rows := n1 }) ∧
    (∀ (n1 n2 : Nat) (e : String),
      engine (mkReader TRACKS_SCHEMA true) (lookupD (S3_INPUT st) "tracks") = .ok n1 →
      engine (mkReader GENRES_SCHEMA false) (lookupD (S3_INPUT st) "genres") = .ok n2 →
      engine (mkReader ARTISTS_SCHEMA true) (lookupD (S3_INPUT st) "artists") = .error e →
      (convert_all engine st fs).result = .error e ∧
      (convert_all engine st fs).fs =
        fsWrite
          (fsWrite fs (lookupD LOCAL_OUTPUT "tracks")
            { fmt := "parquet", compression := "snappy", rows := n1 })
          (lookupD LOCAL_OUTPUT "genres")
          { fmt := "parquet", compression := "snappy", rows := n2 } ∧
      (convert_all engine st fs).fs.lookup (lookupD LOCAL_OUTPUT "tracks") =
        some { fmt := "parquet", compression := "snappy", rows := n1 } ∧
      (convert_all engine st fs).fs.lookup (lookupD LOCAL_OUTPUT "genres") =
        some { fmt := "parquet", compression := "snappy", rows := n2 }) := by
  constructor
  · intro n1 e h1 h2
    have e1 := csv_to_parquet_ok engine fs (lookupD (S3_INPUT st) "tracks")
      (lookupD LOCAL_OUTPUT "tracks") TRACKS_SCHEMA true n1 h1
    have e2 := csv_to_parquet_err engine
      (fsWrite fs (lookupD LOCAL_OUTPUT "tracks")
        { fmt := "parquet", compression := "snappy", rows := n1 })
      (lookupD (S3_INPUT st) "genres") (lookupD LOCAL_OUTPUT "genres")
      GENRES_SCHEMA false e h2
    have hres : convert_all engine st fs =
        { result := .error e
          fs := fsWrite fs (lookupD LOCAL_OUTPUT "tracks")
            { fmt := "parquet", compression := "snappy", rows := n1 }
          trace :=
            [.load (lookupD (S3_INPUT st) "tracks") (mkReader TRACKS_SCHEMA true),
             .countEv n1,
             .writeEv (lookupD LOCAL_OUTPUT "tracks") "overwrite" "snappy" n1,
             .load (lookupD (S3_INPUT st) "genres") (mkReader GENRES_SCHEMA false)] } := by
      simp only [convert_all, e1, e2]
      rfl
    refine ⟨by rw [hres], by rw [hres], ?_⟩
    rw [hres]
    simp [fsWrite, List.lookup]
  · intro n1 n2 e h1 h2 h3
    have e1 := csv_to_parquet_ok engine fs (lookupD (S3_INPUT st) "tracks")
      (lookupD LOCAL_OUTPUT "tracks") TRACKS_SCHEMA true n1 h1
    have e2 := csv_to_parquet_ok engine
      (fsWrite fs (lookupD LOCAL_OUTPUT "tracks")
        { fmt := "parquet", compression := "snappy", rows := n1 })
      (lookupD (S3_INPUT st) "genres") (lookupD LOCAL_OUTPUT "genres")
      GENRES_SCHEMA false n2 h2
    have e3 := csv_to_parquet_err engine
      (fsWrite
        (fsWrite fs (lookupD LOCAL_OUTPUT "tracks")
          { fmt := "parquet", compression := "snappy", rows := n1 })
        (lookupD LOCAL_OUTPUT "genres")
        { fmt := "parquet", compression := "snappy", rows := n2 })
      (lookupD (S3_INPUT st) "artists") (lookupD LOCAL_OUTPUT "artists")
      ARTISTS_SCHEMA true e h3
    have hres : convert_all engine st fs =
        { result := .error e
          fs := fsWrite
            (fsWrite fs (lookupD LOCAL_OUTPUT "tracks")
              { fmt := "parquet", compression := "snappy", rows := n1 })
            (lookupD LOCAL_OUTPUT "genres")
            { fmt := "parquet", compression := "snappy", rows := n2 }
          trace :=
            [.load (lookupD (S3_INPUT st) "tracks") (mkReader TRACKS_SCHEMA true),
             .countEv n1,
             .writeEv (lookupD LOCAL_OUTPUT "tracks") "overwrite" "snappy" n1,
             .load (lookupD (S3_INPUT st) "genres") (mkReader GENRES_SCHEMA false),
             .countEv n2,
             .writeEv (lookupD LOCAL_OUTPUT "genres") "overwrite" "snappy" n2,
             .load (lookupD (S3_INPUT st) "artists") (mkReader ARTISTS_SCHEMA true)] } := by
      simp only [convert_all, e1, e2, e3]
      rfl
    refine ⟨by rw [hres], by rw [hres], ?_, ?_⟩
    · rw [hres]
      simp [fsWrite, lookupD, LOCAL_OUTPUT, List.lookup, List.filter]
    · rw [hres]
      simp [fsWrite, lookupD, LOCAL_OUTPUT, List.lookup, List.filter]

/-- C9 witness: two concrete runs — one where only the genres read fails
after tracks succeeded, one where only the artists read fails after tracks
and genres succeeded. -/
theorem convert_all_no_rollback_witness :
    engineGenresFail (mkReader TRACKS_SCHEMA true)
      (lookupD (S3_INPUT stW) "tracks") = .ok 2 ∧
    engineGenresFail (mkReader GENRES_SCHEMA false)
      (lookupD (S3_INPUT stW) "genres") = .error "genres read failed" ∧
    (convert_all engineGenresFail stW []).result = .error "genres read failed" ∧
    (convert_all engineGenresFail stW []).fs.lookup
      (lookupD LOCAL_OUTPUT "tracks") =
        some { fmt := "parquet", compression := "snappy", rows := 2 } ∧
    engineArtistsFail (mkReader TRACKS_SCHEMA true)
      (lookupD (S3_INPUT stW) "tracks") = .ok 2 ∧
    engineArtistsFail (mkReader GENRES_SCHEMA false)
      (lookupD (S3_INPUT stW) "genres") = .ok 2 ∧
    engineArtistsFail (mkReader ARTISTS_SCHEMA true)
      (lookupD (S3_INPUT stW) "artists") = .error "artists read failed" ∧
    (convert_all engineArtistsFail stW []).result = .error "artists read failed" ∧
    (convert_all engineArtistsFail stW []).fs.lookup
      (lookupD LOCAL_OUTPUT "tracks") =
        some { fmt := "parquet", compression := "snappy", rows := 2 } ∧
    (convert_all engineArtistsFail stW []).fs.lookup
      (lookupD LOCAL_OUTPUT "genres") =
        some { fmt := "parquet", compression := "snappy", rows := 2 } := by
  have A := (convert_all_no_rollback engineGenresFail stW []).1 2
    "genres read failed" rfl rfl
  have B := (convert_all_no_rollback engineArtistsFail stW []).2 2 2
    "artists read failed" rfl rfl rfl
  exact ⟨rfl, rfl, A.1, A.2.2, rfl, rfl, rfl, B.1, B.2.2.1, B.2.2.2⟩

/-- C10: the bucket and region are read from the environment once, at module
import; they fix the three source URIs (with bucket default `musicrec-data`)
and the endpoint host (with region default `ap-south-1`) for the rest of the
process, independently of the environment seen later; each
`create_spark_session` call re-reads only the two credentials from the
current environment. -/
theorem import_time_env_binding (env env2 : Env)
    (hak : pyTruthy (env2 "AWS_ACCESS_KEY_ID") = true)
    (hsk : pyTruthy (env2 "AWS_SECRET_ACCESS_KEY") = true) :
    S3_INPUT (moduleInit env) =
      [("tracks", "s3a://" ++ getenvD env "S3_BUCKET" "musicrec-data" ++ "/raw_tracks.csv"),
       ("genres", "s3a://" ++ getenvD env "S3_BUCKET" "musicrec-data" ++ "/raw_genres.csv"),
       ("artists", "s3a://" ++ getenvD env "S3_BUCKET" "musicrec-data" ++ "/raw_artists.csv")] ∧
    (moduleInit env).aws_region = getenvD env "AWS_REGION" "ap-south-1" ∧
    (moduleInit env).s3_bucket = getenvD env "S3_BUCKET" "musicrec-data" ∧
    (create_spark_session (moduleInit env) env2).map
        (fun sess => sess.configs.lookup "spark.hadoop.fs.s3a.endpoint") =
      .ok (some ("s3." ++ getenvD env "AWS_REGION" "ap-south-1" ++ ".amazonaws.com")) ∧
    (create_spark_session (moduleInit env) env2).map
        (fun sess => sess.configs.lookup "spark.hadoop.fs.s3a.access.key") =
      .ok (env2 "AWS_ACCESS_KEY_ID") ∧
    (create_spark_session (moduleInit env) env2).map
        (fun sess => sess.configs.lookup "spark.hadoop.fs.s3a.secret.key") =
      .ok (env2 "AWS_SECRET_ACCESS_KEY") := by
  refine ⟨rfl, rfl, rfl, ?_, ?_, ?_⟩
  · simp [create_spark_session, hak, hsk]
    rfl
  · simp [create_spark_session, hak, hsk]
    cases hval : env2 "AWS_ACCESS_KEY_ID" with
    | none => rw [hval] at hak; simp [pyTruthy] at hak
    | some v => rfl
  · simp [create_spark_session, hak, hsk]
    cases hval : env2 "AWS_SECRET_ACCESS_KEY" with
    | none => rw [hval] at hsk; simp [pyTruthy] at hsk
    | some v => rfl

/-- C10 witness: a custom bucket/region environment at import, a different
credential-only environment at session-creation time. -/
theorem import_time_env_binding_witness :
    pyTruthy (envGoodCreds "AWS_ACCESS_KEY_ID") = true ∧
    pyTruthy (envGoodCreds "AWS_SECRET_ACCESS_KEY") = true ∧
    S3_INPUT (moduleInit envCustom) =
      [("tracks", "s3a://" ++ getenvD envCustom "S3_BUCKET" "musicrec-data" ++ "/raw_tracks.csv"),
       ("genres", "s3a://" ++ getenvD envCustom "S3_BUCKET" "musicrec-data" ++ "/raw_genres.csv"),
       ("artists", "s3a://" ++ getenvD envCustom "S3_BUCKET" "musicrec-data" ++ "/raw_artists.csv")] ∧
    (moduleInit envCustom).aws_region = getenvD envCustom "AWS_REGION" "ap-south-1" ∧
    (create_spark_session (moduleInit envCustom) envGoodCreds).map
        (fun sess => sess.configs.lookup "spark.hadoop.fs.s3a.endpoint") =
      .ok (some ("s3." ++ getenvD envCustom "AWS_REGION" "ap-south-1" ++ ".amazonaws.com")) ∧
    (create_spark_session (moduleInit envCustom) envGoodCreds).map
        (fun sess => sess.configs.lookup "spark.hadoop.fs.s3a.access.key") =
      .ok (envGoodCreds "AWS_ACCESS_KEY_ID") := by
  have T := import_time_env_binding envCustom envGoodCreds rfl rfl
  exact ⟨rfl, rfl, T.1, T.2.1, T.2.2.2.1, T.2.2.2.2.1⟩
